import Mathlib

/-!
Shallow embedding of `src/main.rs` of the gix-each repository: a CLI tool that
enumerates the immediate subdirectories of a root path, treats each as a git
repository, and fetches from its default remote, either serially or on a
bounded rayon thread pool.

Filesystem reads and git operations are modelled by explicit environments
(`DirEntry`, `RepoEnv`): each field records the result the corresponding
library call returns in a given run, and the embedded functions reproduce the
exact control flow of the source on those results.
-/

namespace GixEach

/-- The standard stream an output line is written to (`println!` vs `eprintln!`). -/
inductive OutStream
  | stdout
  | stderr
  deriving DecidableEq, Repr

/-- One emitted line of output together with the stream it goes to. -/
structure Line where
  stream : OutStream
  text : String
  deriving DecidableEq, Repr

/-- An I/O error, kept as its rendered message (`std::io::Error` display). -/
abbrev IOError := String

/-- One entry of the root directory as observed by `fs::read_dir`.
`isDir` is the value of Rust's `path.is_dir()`, which follows symbolic
links: it is true iff the metadata of the (symlink-resolved) target is a
directory.  `isSymlink` records whether the entry itself is a symbolic link;
`fs::read_dir` entry paths always have a final component, so `name` is the
value of `path.file_name()`. -/
structure DirEntry where
  name : String
  isSymlink : Bool
  isDir : Bool
  deriving DecidableEq, Repr

/-- The loop body of `list_subdirectories`: `for entry in read_dir(path)? {
let entry = entry?; if path.is_dir() { push(file_name) } }`.  An `Err` entry
aborts the whole listing via `?`; a directory entry contributes its name. -/
def collectSubdirs : List (Except IOError DirEntry) → Except IOError (List String)
  | [] => .ok []
  | .error e :: _ => .error e
  | .ok ent :: rest =>
    if ent.isDir then
      (collectSubdirs rest).map fun ds => ent.name :: ds
    else
      collectSubdirs rest

/-- `list_subdirectories` from `src/main.rs`: `fs::read_dir(path)?` produces the
entry sequence (or fails), then the loop keeps the names of entries whose
`path.is_dir()` holds. -/
def list_subdirectories (rd : Except IOError (List (Except IOError DirEntry))) :
    Except IOError (List String) :=
  rd.bind collectSubdirs

/-- The ref map of a fetch outcome: `outcome.ref_map.remote_refs` is the list of
remote references observed in the ref advertisement (each ref kept opaque). -/
structure RefMap where
  remoteRefs : List Nat
  deriving DecidableEq, Repr

/-- The value returned by a successful `.receive(...)` call. -/
structure FetchedOutcome where
  refMap : RefMap
  deriving DecidableEq, Repr

instance {ε α : Type} [DecidableEq ε] [DecidableEq α] : DecidableEq (Except ε α) :=
  fun a b =>
    match a, b with
    | .error e, .error f =>
      if h : e = f then .isTrue (by rw [h]) else .isFalse (by simp [h])
    | .error _, .ok _ => .isFalse (by simp)
    | .ok _, .error _ => .isFalse (by simp)
    | .ok x, .ok y =>
      if h : x = y then .isTrue (by rw [h]) else .isFalse (by simp [h])

/-- Per-work-item git environment: the results the gix library calls return
for this directory in this run.
* `openResult` — `gix::open(path)`.
* `findDefaultRemote` — `repo.find_default_remote(Direction::Fetch)`, an
  `Option<Result<Remote, _>>`: `none` means no remote is configured,
  `some (.error e)` a remote reference that fails to resolve.
* `connectOk` / `prepareFetchOk` — whether `connect(...)` resp.
  `prepare_fetch(...)` return `Ok`; the source unwraps both.
* `receiveResult` — `.receive(progress, &IS_INTERRUPTED)`. -/
structure RepoEnv where
  openResult : Except String Unit
  findDefaultRemote : Option (Except String Unit)
  connectOk : Bool
  prepareFetchOk : Bool
  receiveResult : Except String FetchedOutcome
  deriving DecidableEq, Repr

/-- What one call of `fetch_repo` does: either it runs to completion emitting
a list of output lines, or it panics (an `unwrap` on an `Err`). -/
inductive TaskResult
  | lines (ls : List Line)
  | panicked
  deriving DecidableEq, Repr

/-- `fetch_repo` from `src/main.rs`, line for line: open the repository
(failure prints a not-a-repository line on stderr and returns), find the
default remote (`None` prints a no-remote line, `Some(Err)` prints a
resolution-failure line, both on stderr), then `connect(...).unwrap()` and
`prepare_fetch(...).unwrap()` — an `Err` from either panics — and finally
`receive`, printing a success line with `outcome.ref_map.remote_refs.len()`
on stdout or a fetch-failure line on stderr. -/
def fetch_repo (env : RepoEnv) (dir : String) : TaskResult :=
  match env.openResult with
  | .error e => .lines [⟨.stderr, dir ++ ", 错误：目录非git仓库." ++ e⟩]
  | .ok _ =>
    match env.findDefaultRemote with
    | none => .lines [⟨.stderr, dir ++ ", 错误：未配置remote"⟩]
    | some (.error e) => .lines [⟨.stderr, dir ++ ", 错误：remote获取失败, " ++ e⟩]
    | some (.ok _) =>
      if env.connectOk then
        if env.prepareFetchOk then
          match env.receiveResult with
          | .ok outcome =>
            .lines [⟨.stdout, dir ++ ": 拉取成功完成! 接收到 " ++
              toString outcome.refMap.remoteRefs.length ++ " 个对象"⟩]
          | .error e => .lines [⟨.stderr, dir ++ ": 拉取失败: " ++ e⟩]
        else .panicked
      else .panicked

/-- The spec's `FetchOutcome` sum type, one constructor per failure kind plus
success. -/
inductive FetchOutcome
  | success (refCount : Nat)
  | notARepository (detail : String)
  | noRemoteConfigured
  | remoteResolutionFailed (detail : String)
  | fetchFailed (detail : String)
  deriving DecidableEq, Repr

/-- Classification of a `fetch_repo` run as a `FetchOutcome`, following the
same control flow as `fetch_repo`: each early-exit branch maps to its
failure constructor, the success branch to `success` with
`outcome.ref_map.remote_refs.len()`, and the two unwrap panics to `none`
(no outcome is produced there). -/
def classify (env : RepoEnv) : Option FetchOutcome :=
  match env.openResult with
  | .error e => some (.notARepository e)
  | .ok _ =>
    match env.findDefaultRemote with
    | none => some .noRemoteConfigured
    | some (.error e) => some (.remoteResolutionFailed e)
    | some (.ok _) =>
      if env.connectOk then
        if env.prepareFetchOk then
          match env.receiveResult with
          | .ok outcome => some (.success outcome.refMap.remoteRefs.length)
          | .error e => some (.fetchFailed e)
        else none
      else none

/-- The lines a task result contributes to the output (a panicking task has
printed nothing). -/
def taskLines : TaskResult → List Line
  | .lines ls => ls
  | .panicked => []

/-- The serial scheduler (`dirs.iter().for_each`): tasks run one at a time in
enumeration order; a panic unwinds out of `main`, aborting the run, so later
tasks never start.  Returns the emitted lines and whether the run completed
without a panic. -/
def serialRun : List (String × RepoEnv) → List Line × Bool
  | [] => ([], true)
  | (dir, env) :: rest =>
    match fetch_repo env dir with
    | .lines ls =>
      let r := serialRun rest
      (ls ++ r.1, r.2)
    | .panicked => ([], false)

/-- The parsed command-line arguments (`Args` in `src/main.rs`): `serial`
selects the serial scheduler, `jobs` (u16) the thread-pool bound (0 = let
rayon choose), `depth` (u8) is declared but never read, `path` the root
(defaulting to the current directory). -/
structure Args where
  serial : Bool
  jobs : Nat
  depth : Nat
  path : Option String
  deriving DecidableEq, Repr

/-- The external world of one run: the result of `fs::read_dir` on the root
path and, for each directory name, the git environment its fetch task meets. -/
structure World where
  readDir : Except IOError (List (Except IOError DirEntry))
  repoEnv : String → RepoEnv

/-- The observable behaviour `main` commits to before any scheduling
nondeterminism: a fatal enumeration error printed to stderr, or a completed
serial run, or a parallel run described by the configured pool bound
(`some k` iff `jobs > 0`) and the work items handed to the pool.  The
possible parallel interleavings are generated from `parallelOut`'s data by
the pool semantics below. -/
inductive RunBehavior
  | fatal (l : Line)
  | serialOut (out : List Line) (completed : Bool)
  | parallelOut (poolBound : Option Nat) (tasks : List (String × RepoEnv))

/-- `main` from `src/main.rs`: list the subdirectories of the root; on error
print one line `错误: {e}` to stderr and stop; otherwise run every directory
through `fetch_repo`, serially or on the rayon pool (whose global thread
count is set to `jobs` when `jobs > 0`). -/
def run (args : Args) (w : World) : RunBehavior :=
  match list_subdirectories w.readDir with
  | .error e => .fatal ⟨.stderr, "错误: " ++ e⟩
  | .ok dirs =>
    let tasks := dirs.map fun d => (d, w.repoEnv d)
    if args.serial then
      .serialOut (serialRun tasks).1 (serialRun tasks).2
    else
      .parallelOut (if args.jobs > 0 then some args.jobs else none) tasks

/-! ### Bounded thread-pool semantics

Model of rayon's fixed-size global thread pool executing
`dirs.par_iter().for_each(|dir| fetch_repo(...))` with `k` worker threads:
`workers` has one slot per thread (`some t` while the thread is executing the
fetch task `t`, `none` while idle), `pending` are the work items not yet
picked up, `events` the completed tasks with their printed lines in
completion order, and `aborted` is set when a task panics (rayon re-raises
the panic at the `for_each` join, so no new task starts after it). -/

structure PoolState where
  pending : List (String × RepoEnv)
  workers : List (Option (String × RepoEnv))
  events : List ((String × RepoEnv) × List Line)
  aborted : Bool

/-- Number of worker threads currently executing a fetch task. -/
def busyCount (s : PoolState) : Nat := (s.workers.filter Option.isSome).length

/-- The tasks currently being executed by some worker thread. -/
def busyTasks (s : PoolState) : List (String × RepoEnv) := s.workers.filterMap id

/-- One scheduler step of the pool: an idle worker picks up the next pending
item (only while no panic has been raised), or a running task finishes —
normally, appending its completion event, or by panicking, which raises the
abort flag and records no event. -/
inductive PoolStep : PoolState → PoolState → Prop
  | start (t : String × RepoEnv) (rest : List (String × RepoEnv))
      (w₁ w₂ : List (Option (String × RepoEnv)))
      (ev : List ((String × RepoEnv) × List Line)) :
      PoolStep ⟨t :: rest, w₁ ++ none :: w₂, ev, false⟩
        ⟨rest, w₁ ++ some t :: w₂, ev, false⟩
  | finishOk (t : String × RepoEnv)
      (w₁ w₂ : List (Option (String × RepoEnv)))
      (p : List (String × RepoEnv))
      (ev : List ((String × RepoEnv) × List Line)) (ab : Bool)
      (ls : List Line) (h : fetch_repo t.2 t.1 = .lines ls) :
      PoolStep ⟨p, w₁ ++ some t :: w₂, ev, ab⟩
        ⟨p, w₁ ++ none :: w₂, ev ++ [(t, ls)], ab⟩
  | finishPanic (t : String × RepoEnv)
      (w₁ w₂ : List (Option (String × RepoEnv)))
      (p : List (String × RepoEnv))
      (ev : List ((String × RepoEnv) × List Line)) (ab : Bool)
      (h : fetch_repo t.2 t.1 = .panicked) :
      PoolStep ⟨p, w₁ ++ some t :: w₂, ev, ab⟩
        ⟨p, w₁ ++ none :: w₂, ev, true⟩

/-- Initial pool state: all `k` worker threads idle, every work item pending. -/
def initPool (k : Nat) (tasks : List (String × RepoEnv)) : PoolState :=
  ⟨tasks, List.replicate k none, [], false⟩

/-- The states a parallel run with pool bound `k` on `tasks` can reach. -/
def PoolReachable (k : Nat) (tasks : List (String × RepoEnv)) (s : PoolState) : Prop :=
  Relation.ReflTransGen PoolStep (initPool k tasks) s

/-- A drained pool: no pending work and every worker idle. -/
def isTerminal (s : PoolState) : Prop := s.pending = [] ∧ ∀ w ∈ s.workers, w = none

/-! ### Helper lemmas -/

/-- A `fetch_repo` call that does not panic prints exactly one line. -/
lemma fetch_repo_shape (env : RepoEnv) (dir : String) :
    (∃ l, fetch_repo env dir = .lines [l]) ∨ fetch_repo env dir = .panicked := by
  obtain ⟨o, r, c, p, rc⟩ := env
  cases o with
  | error e => exact .inl ⟨_, rfl⟩
  | ok u =>
    cases u
    cases r with
    | none => exact .inl ⟨_, rfl⟩
    | some res =>
      cases res with
      | error e => exact .inl ⟨_, rfl⟩
      | ok u' =>
        cases u'
        cases c with
        | false => exact .inr rfl
        | true =>
          cases p with
          | false => exact .inr rfl
          | true =>
            cases rc with
            | error e => exact .inl ⟨_, rfl⟩
            | ok oc => exact .inl ⟨_, rfl⟩

/-- Across every reachable pool state, the number of worker slots stays `k`. -/
lemma pool_workers_length {k : Nat} {tasks : List (String × RepoEnv)} {s : PoolState}
    (hr : PoolReachable k tasks s) : s.workers.length = k := by
  induction hr with
  | refl => simp [initPool]
  | tail _ step ih =>
    cases step with
    | start t rest w₁ w₂ ev => simpa using ih
    | finishOk t w₁ w₂ p ev ab ls h => simpa using ih
    | finishPanic t w₁ w₂ p ev ab h => simpa using ih

/-- The work still owned by a reachable pool state (pending, running, and
completed) is exactly the initial work multiset, and no panic has been raised,
provided no task of the work set panics. -/
lemma pool_conservation {tasks : List (String × RepoEnv)}
    (hnp : ∀ t ∈ tasks, fetch_repo t.2 t.1 ≠ TaskResult.panicked)
    {k : Nat} {s : PoolState} (hr : PoolReachable k tasks s) :
    (↑s.pending + ↑(busyTasks s) + ↑(s.events.map Prod.fst) : Multiset (String × RepoEnv))
        = ↑tasks ∧ s.aborted = false := by
  induction hr with
  | refl => simp [initPool, busyTasks]
  | tail _ step ih =>
    obtain ⟨ihm, ihab⟩ := ih
    cases step with
    | start t rest w₁ w₂ ev =>
      refine ⟨?_, rfl⟩
      simp only [busyTasks, List.filterMap_append, List.filterMap_cons] at ihm ⊢
      simp only [id] at ihm ⊢
      rw [← ihm]
      simp only [← Multiset.cons_coe, ← Multiset.coe_add]
      rw [← Multiset.singleton_add, ← Multiset.singleton_add]
      abel
    | finishOk t w₁ w₂ p ev ab ls h =>
      refine ⟨?_, ihab⟩
      simp only [busyTasks, List.filterMap_append, List.filterMap_cons] at ihm ⊢
      simp only [id] at ihm ⊢
      rw [← ihm]
      simp only [List.map_append, List.map_cons, List.map_nil, ← Multiset.cons_coe,
        ← Multiset.coe_add]
      rw [← Multiset.singleton_add, ← Multiset.singleton_add]
      abel
    | finishPanic t w₁ w₂ p ev ab h =>
      exfalso
      have ht : t ∈ tasks := by
        have : t ∈ (↑tasks : Multiset (String × RepoEnv)) := by
          rw [← ihm]
          have : t ∈ busyTasks ⟨p, w₁ ++ some t :: w₂, ev, ab⟩ := by
            simp [busyTasks, List.filterMap_append, List.filterMap_cons]
          simp only [Multiset.mem_add, Multiset.mem_coe]
          exact .inl (.inr this)
        simpa using this
      exact hnp t ht h

/-- A serial run in which no task panics emits the per-task lines
concatenated in enumeration order and completes. -/
lemma serialRun_eq_join (tasks : List (String × RepoEnv))
    (h : ∀ t ∈ tasks, fetch_repo t.2 t.1 ≠ TaskResult.panicked) :
    serialRun tasks = ((tasks.map fun t => taskLines (fetch_repo t.2 t.1)).flatten, true) := by
  induction tasks with
  | nil => rfl
  | cons t rest ih =>
    have htail : ∀ u ∈ rest, fetch_repo u.2 u.1 ≠ TaskResult.panicked :=
      fun u hu => h u (List.mem_cons_of_mem t hu)
    obtain ⟨l, hl⟩ | hp := fetch_repo_shape t.2 t.1
    · obtain ⟨dir, env⟩ := t
      simp only at hl
      simp [serialRun, hl, ih htail, taskLines]
    · exact absurd hp (h t (List.mem_cons_self t rest))

/-- When `fs::read_dir` on the root fails, `main` prints one fatal line on
stderr and nothing else. -/
lemma run_readDir_error (args : Args) (w : World) (e : IOError)
    (h : w.readDir = .error e) :
    run args w = .fatal ⟨.stderr, "错误: " ++ e⟩ := by
  simp [run, list_subdirectories, h, Except.bind]

/-! ### Claims -/

/-- C1, counterexample: `fetch_repo` does not capture every possible failure.
At a work item whose directory opens as a repository with a configured,
resolvable remote but whose `connect` call fails, the `unwrap` on the
connect result panics: the failure escapes the task instead of being
converted into a reported outcome. -/
theorem c1_counterexample :
    fetch_repo ⟨.ok (), some (.ok ()), false, true, .ok ⟨⟨[]⟩⟩⟩ ("repo-a")
      = TaskResult.panicked := rfl

/-- C1, amended: `fetch_repo` captures failures of the open, remote-lookup,
remote-resolution and receive steps and converts each into a reported
outcome line, but a failure while connecting to the remote or preparing the
fetch is NOT contained: it panics out of the task.  Precisely, a run panics
iff the repository opens, the default remote resolves, and connect or
prepare-fetch fails. -/
theorem c1_failures_contained_except_connect_prepare (env : RepoEnv) (dir : String) :
    fetch_repo env dir = TaskResult.panicked ↔
      env.openResult = .ok () ∧ env.findDefaultRemote = some (.ok ()) ∧
        ¬(env.connectOk = true ∧ env.prepareFetchOk = true) := by
  obtain ⟨o, r, c, p, rc⟩ := env
  cases o with
  | error e => simp [fetch_repo]
  | ok u =>
    cases u
    cases r with
    | none => simp [fetch_repo]
    | some res =>
      cases res with
      | error e => simp [fetch_repo]
      | ok u' =>
        cases u'
        cases c <;> cases p <;> cases rc <;> simp [fetch_repo]

/-- C4, counterexample: `list_subdirectories` keeps an entry that is a
symbolic link pointing at a directory, because `path.is_dir()` follows
symlinks; the claim says symlinks to directories are excluded. -/
theorem c4_counterexample :
    list_subdirectories (.ok [.ok ⟨"link-to-dir", true, true⟩]) = .ok ["link-to-dir"] ∧
      DirEntry.isSymlink ⟨"link-to-dir", true, true⟩ = true :=
  ⟨rfl, rfl⟩

/-- C4, amended: `list_subdirectories` returns exactly the names, in entry
order, of the immediate child entries whose symlink-followed metadata is a
directory: plain files and symlinks to non-directories are excluded, but
symlinks that point at directories are included. -/
theorem c4_keeps_exactly_followed_directories (entries : List DirEntry) :
    list_subdirectories (.ok (entries.map .ok)) =
      .ok ((entries.filter fun ent => ent.isDir).map fun ent => ent.name) := by
  induction entries with
  | nil => rfl
  | cons ent rest ih =>
    simp only [list_subdirectories, Except.bind] at ih ⊢
    cases hd : ent.isDir <;>
      simp [collectSubdirs, hd, List.filter_cons, ih, Except.map]

/-- C8: if reading the root directory fails, the run emits exactly one fatal
enumeration-error line on stderr, reports zero per-item outcomes, and
schedules no fetch task, in any concurrency mode. -/
theorem c8_fatal_enumeration_error (args : Args) (w : World) (e : IOError)
    (h : w.readDir = .error e) :
    run args w = .fatal ⟨.stderr, "错误: " ++ e⟩ :=
  run_readDir_error args w e h

/-- C8, witness at a concrete world whose root read fails. -/
theorem c8_fatal_enumeration_error_witness :
    run ⟨false, 4, 1, none⟩
        ⟨.error ("No such file or directory"), fun _ => ⟨.ok (), none, true, true, .error ("x")⟩⟩
      = .fatal ⟨.stderr, "错误: No such file or directory"⟩ :=
  c8_fatal_enumeration_error ⟨false, 4, 1, none⟩ _ _ rfl

/-- C10: the `depth` option is parsed but never read: two invocations that
differ only in `depth` behave identically on every world — same fatal
errors, same enumerated work set (always the single level of immediate
children), same outcomes and scheduling. -/
theorem c10_depth_has_no_effect (args : Args) (d₁ d₂ : Nat) (w : World) :
    run { args with depth := d₁ } w = run { args with depth := d₂ } w := rfl

/-- C5: in serial mode, for any work set on which no task hits the unwrap
panic (any mix of success and reported-failure results), the tasks run one
at a time, each to completion before the next starts, and the run emits the
per-task outcome lines concatenated in exactly the enumeration order. -/
theorem c5_serial_outcomes_in_enumeration_order (tasks : List (String × RepoEnv))
    (h : ∀ t ∈ tasks, fetch_repo t.2 t.1 ≠ TaskResult.panicked) :
    serialRun tasks = ((tasks.map fun t => taskLines (fetch_repo t.2 t.1)).flatten, true) :=
  serialRun_eq_join tasks h

/-- C5, witness: a two-item work set mixing a not-a-repository failure and a
success yields its two lines in enumeration order. -/
theorem c5_serial_outcomes_in_enumeration_order_witness :
    serialRun [(("a" : String), (⟨.error ("no repo"), none, true, true, .error ("x")⟩ : RepoEnv)),
        (("b" : String), (⟨.ok (), some (.ok ()), true, true, .ok ⟨⟨[7, 9]⟩⟩⟩ : RepoEnv))] =
      (([(("a" : String), (⟨.error ("no repo"), none, true, true, .error ("x")⟩ : RepoEnv)),
        (("b" : String), (⟨.ok (), some (.ok ()), true, true, .ok ⟨⟨[7, 9]⟩⟩⟩ : RepoEnv))].map
          fun t => taskLines (fetch_repo t.2 t.1)).flatten, true) :=
  c5_serial_outcomes_in_enumeration_order _ (by decide)

/-- C2, counterexample: a work set of one discovered subdirectory whose fetch
task panics on the connect unwrap produces zero outcome reports, not one:
the serial run aborts with no line emitted although `list_subdirectories`
discovered one work item. -/
theorem c2_counterexample :
    run ⟨true, 0, 1, none⟩
        ⟨.ok [.ok ⟨"r", false, true⟩],
          fun _ => ⟨.ok (), some (.ok ()), false, true, .ok ⟨⟨[]⟩⟩⟩⟩
      = .serialOut [] false ∧
    list_subdirectories (.ok [.ok ⟨"r", false, true⟩]) = .ok ["r"] :=
  ⟨rfl, rfl⟩

/-- C2, amended: for every work set of size N on which no task hits the
connect/prepare-fetch unwrap panic, the run produces exactly N outcome
reports, one per discovered subdirectory, with none processed twice and
none skipped, in both serial mode and, for every pool bound and every
interleaving that drains the pool, parallel mode. -/
theorem c2_exactly_one_outcome_per_item (tasks : List (String × RepoEnv))
    (hnp : ∀ t ∈ tasks, fetch_repo t.2 t.1 ≠ TaskResult.panicked) :
    ((serialRun tasks).1.length = tasks.length ∧ (serialRun tasks).2 = true) ∧
    ∀ k s, PoolReachable k tasks s → isTerminal s →
      s.events.length = tasks.length ∧ (s.events.map Prod.fst).Perm tasks := by
  constructor
  · rw [serialRun_eq_join tasks hnp]
    refine ⟨?_, rfl⟩
    simp only [List.length_flatten, List.map_map]
    have hone : ∀ t ∈ tasks, ((taskLines ∘ fun t => fetch_repo t.2 t.1) t).length = 1 := by
      intro t ht
      obtain ⟨l, hl⟩ | hp := fetch_repo_shape t.2 t.1
      · simp [Function.comp, hl, taskLines]
      · exact absurd hp (hnp t ht)
    calc (List.map (List.length ∘ (taskLines ∘ fun t => fetch_repo t.2 t.1)) tasks).sum
        = (List.map (fun _ => 1) tasks).sum := by
          refine congrArg List.sum (List.map_congr_left ?_)
          intro t ht
          exact hone t ht
      _ = tasks.length := by simp
  · intro k s hr hterm
    obtain ⟨hm, -⟩ := pool_conservation hnp hr
    have hb : busyTasks s = [] := by
      simp only [busyTasks, List.filterMap_eq_nil_iff]
      intro a ha
      simpa using hterm.2 a ha
    rw [hterm.1, hb] at hm
    simp only [Multiset.coe_nil, zero_add] at hm
    have hperm : (s.events.map Prod.fst).Perm tasks := Multiset.coe_eq_coe.mp hm
    refine ⟨?_, hperm⟩
    have := hperm.length_eq
    simpa using this

/-- C2, witness: the one-good-repository work set; in serial mode it yields
exactly one line, and every drained parallel schedule reports it exactly
once. -/
theorem c2_exactly_one_outcome_per_item_witness :
    ((serialRun [(("a" : String), (⟨.ok (), some (.ok ()), true, true,
          .ok ⟨⟨[3]⟩⟩⟩ : RepoEnv))]).1.length = 1 ∧
      (serialRun [(("a" : String), (⟨.ok (), some (.ok ()), true, true,
          .ok ⟨⟨[3]⟩⟩⟩ : RepoEnv))]).2 = true) ∧
    ∀ k s, PoolReachable k [(("a" : String), (⟨.ok (), some (.ok ()), true, true,
          .ok ⟨⟨[3]⟩⟩⟩ : RepoEnv))] s → isTerminal s →
      s.events.length = 1 ∧ (s.events.map Prod.fst).Perm
        [(("a" : String), (⟨.ok (), some (.ok ()), true, true, .ok ⟨⟨[3]⟩⟩⟩ : RepoEnv))] :=
  c2_exactly_one_outcome_per_item _ (by decide)

/-- C9: in parallel mode with pool bound `k > 0`, in every reachable state of
every run at most `k` fetch tasks are concurrently executing (hence at most
`k` are in their network phase); a further task can only start by occupying
an idle worker slot, so it waits until one frees. -/
theorem c9_worker_bound_never_exceeded (k : Nat) (_hk : 0 < k)
    (tasks : List (String × RepoEnv)) (s : PoolState)
    (hr : PoolReachable k tasks s) : busyCount s ≤ k :=
  calc busyCount s ≤ s.workers.length := List.length_filter_le _ _
    _ = k := pool_workers_length hr

/-- C9, witness: the bound holds in the initial state of a one-thread pool. -/
theorem c9_worker_bound_never_exceeded_witness :
    busyCount (initPool 1 [(("a" : String), (⟨.ok (), none, true, true,
        .error ("x")⟩ : RepoEnv))]) ≤ 1 :=
  c9_worker_bound_never_exceeded 1 (by decide) _ _ Relation.ReflTransGen.refl

/-- C3, counterexample: a per-work-item failure outcome line is written to
stderr, not stdout: at a directory that fails to open as a repository the
task prints its not-a-repository line with `eprintln!`. -/
theorem c3_counterexample :
    fetch_repo ⟨.error ("boom"), none, true, true, .error ("x")⟩ ("r")
      = .lines [⟨.stderr, "r, 错误：目录非git仓库.boom"⟩] ∧
    OutStream.stderr ≠ OutStream.stdout :=
  ⟨rfl, by decide⟩

/-- C3, amended: only the success outcome line is written to stdout; the four
failure outcome lines are written to stderr, as are fatal enumeration
errors.  Precisely, a line printed by a task goes to stdout iff the task's
outcome is `Success`, and a failing root read yields one stderr line. -/
theorem c3_only_success_on_stdout (env : RepoEnv) (dir : String)
    (ls : List Line) (l : Line)
    (hl : fetch_repo env dir = TaskResult.lines ls) (hm : l ∈ ls) :
    (l.stream = OutStream.stdout ↔ ∃ n, classify env = some (FetchOutcome.success n)) ∧
    ∀ args w e, w.readDir = Except.error e →
      run args w = RunBehavior.fatal ⟨OutStream.stderr, "错误: " ++ e⟩ := by
  refine ⟨?_, fun args w e hw => run_readDir_error args w e hw⟩
  obtain ⟨o, r, c, p, rc⟩ := env
  cases o with
  | error e =>
    simp only [fetch_repo, TaskResult.lines.injEq] at hl
    subst hl
    simp only [List.mem_singleton] at hm
    subst hm
    simp [classify]
  | ok u =>
    cases u
    cases r with
    | none =>
      simp only [fetch_repo, TaskResult.lines.injEq] at hl
      subst hl
      simp only [List.mem_singleton] at hm
      subst hm
      simp [classify]
    | some res =>
      cases res with
      | error e =>
        simp only [fetch_repo, TaskResult.lines.injEq] at hl
        subst hl
        simp only [List.mem_singleton] at hm
        subst hm
        simp [classify]
      | ok u' =>
        cases u'
        cases c with
        | false => simp [fetch_repo] at hl
        | true =>
          cases p with
          | false => simp [fetch_repo] at hl
          | true =>
            cases rc with
            | error e =>
              simp only [fetch_repo, if_true, TaskResult.lines.injEq] at hl
              subst hl
              simp only [List.mem_singleton] at hm
              subst hm
              simp [classify]
            | ok oc =>
              simp only [fetch_repo, if_true, TaskResult.lines.injEq] at hl
              subst hl
              simp only [List.mem_singleton] at hm
              subst hm
              simp [classify]

/-- C3, witness: the no-remote failure line of a concrete task is not on
stdout, and a concrete failing root read produces its stderr fatal line. -/
theorem c3_only_success_on_stdout_witness :
    ((Line.mk OutStream.stderr "a, 错误：未配置remote").stream = OutStream.stdout ↔
      ∃ n, classify ⟨.ok (), none, true, true, .error ("x")⟩
        = some (FetchOutcome.success n)) ∧
    ∀ args w e, w.readDir = Except.error e →
      run args w = RunBehavior.fatal ⟨OutStream.stderr, "错误: " ++ e⟩ :=
  c3_only_success_on_stdout ⟨.ok (), none, true, true, .error ("x")⟩ ("a")
    [⟨OutStream.stderr, "a, 错误：未配置remote"⟩] ⟨OutStream.stderr, "a, 错误：未配置remote"⟩
    rfl (List.mem_singleton.mpr rfl)

/-- C6: for a work item whose directory opens as a repository, the two
remote-resolution failure modes are kept apart: no configured remote at all
yields the `NoRemoteConfigured` outcome, whose report line carries no error
detail, while a remote reference that fails to resolve yields the
`RemoteResolutionFailed` outcome carrying the underlying detail; the two
outcomes are distinct. -/
theorem c6_no_remote_vs_resolution_failure (env env' : RepoEnv) (dir : String) (e : String)
    (h1 : env.openResult = .ok ()) (h2 : env.findDefaultRemote = none)
    (h3 : env'.openResult = .ok ()) (h4 : env'.findDefaultRemote = some (.error e)) :
    classify env = some FetchOutcome.noRemoteConfigured ∧
    classify env' = some (FetchOutcome.remoteResolutionFailed e) ∧
    fetch_repo env dir = .lines [⟨.stderr, dir ++ ", 错误：未配置remote"⟩] ∧
    fetch_repo env' dir = .lines [⟨.stderr, dir ++ ", 错误：remote获取失败, " ++ e⟩] ∧
    FetchOutcome.noRemoteConfigured ≠ FetchOutcome.remoteResolutionFailed e := by
  refine ⟨?_, ?_, ?_, ?_, fun h => nomatch h⟩
  · simp [classify, h1, h2]
  · simp [classify, h3, h4]
  · simp [fetch_repo, h1, h2]
  · simp [fetch_repo, h3, h4]

/-- C6, witness at two concrete repository environments. -/
theorem c6_no_remote_vs_resolution_failure_witness :
    classify ⟨.ok (), none, true, true, .error ("x")⟩ = some FetchOutcome.noRemoteConfigured ∧
    classify ⟨.ok (), some (.error ("bad url")), true, true, .error ("x")⟩
      = some (FetchOutcome.remoteResolutionFailed "bad url") ∧
    fetch_repo ⟨.ok (), none, true, true, .error ("x")⟩ ("d")
      = .lines [⟨.stderr, "d" ++ ", 错误：未配置remote"⟩] ∧
    fetch_repo ⟨.ok (), some (.error ("bad url")), true, true, .error ("x")⟩ ("d")
      = .lines [⟨.stderr, "d" ++ ", 错误：remote获取失败, " ++ "bad url"⟩] ∧
    FetchOutcome.noRemoteConfigured ≠ FetchOutcome.remoteResolutionFailed "bad url" :=
  c6_no_remote_vs_resolution_failure _ _ ("d") ("bad url") rfl rfl rfl rfl

/-- C7: for a work item whose fetch succeeds, the count in the success report
is exactly the number of remote references observed in the ref
advertisement of that fetch (`outcome.ref_map.remote_refs.len()`), both in
the classified outcome and in the printed line. -/
theorem c7_success_reports_ref_count (env : RepoEnv) (dir : String)
    (outcome : FetchedOutcome)
    (h1 : env.openResult = .ok ()) (h2 : env.findDefaultRemote = some (.ok ()))
    (h3 : env.connectOk = true) (h4 : env.prepareFetchOk = true)
    (h5 : env.receiveResult = .ok outcome) :
    classify env = some (FetchOutcome.success outcome.refMap.remoteRefs.length) ∧
    fetch_repo env dir = .lines [⟨.stdout, dir ++ ": 拉取成功完成! 接收到 " ++
      toString outcome.refMap.remoteRefs.length ++ " 个对象"⟩] := by
  constructor
  · simp [classify, h1, h2, h3, h4, h5]
  · simp [fetch_repo, h1, h2, h3, h4, h5]

/-- C7, witness: a concrete successful fetch whose ref advertisement lists
two remote references reports the count 2. -/
theorem c7_success_reports_ref_count_witness :
    classify ⟨.ok (), some (.ok ()), true, true, .ok ⟨⟨[5, 8]⟩⟩⟩
      = some (FetchOutcome.success 2) ∧
    fetch_repo ⟨.ok (), some (.ok ()), true, true, .ok ⟨⟨[5, 8]⟩⟩⟩ ("d")
      = .lines [⟨.stdout, "d" ++ ": 拉取成功完成! 接收到 " ++ toString 2 ++ " 个对象"⟩] :=
  c7_success_reports_ref_count _ ("d") ⟨⟨[5, 8]⟩⟩ rfl rfl rfl rfl rfl

end GixEach
